import Mathlib

/-!
Verification of the imangor-api core: the credit ledger
(`app/services/credit_management.py`), payment reconciliation
(`app/api/v1/payments.py`), job status updates (`app/crud/job.py`),
sliding-window rate limiting (`app/middleware/rate_limiting.py`),
anonymous device quotas (`app/services/device_tracking.py`,
`app/api/v1/image.py`), webhook delivery
(`app/services/image_processing.py`) and device fingerprinting
(`app/core/security.py`), shallowly embedded in Lean.

Conventions of the embedding: credit amounts are exact rationals,
timestamps are integers (seconds), database tables are Lean lists,
and code that can raise returns `Except`.  SQL filters are embedded
with their null semantics: a comparison against a NULL column is
false.
-/

namespace Imangor

/-- Transaction kinds, from `TransactionType` in `app/models/transaction.py`. -/
inductive TransactionType where
  | purchase
  | usage
  | refund
  | bonus
  | penalty
deriving DecidableEq, Repr

/-- Transaction statuses, from `TransactionStatus` in `app/models/transaction.py`. -/
inductive TransactionStatus where
  | pending
  | completed
  | failed
  | cancelled
deriving DecidableEq, Repr

/-- A row of the `credit_transactions` table (`CreditTransaction` in
`app/models/transaction.py`).  Fields not used by the embedded code paths
(`cost_naira`, `cost_usd`, `transaction_metadata`, timestamps) are omitted;
`expires_at` is `none` for a NULL column. -/
structure CreditTransaction where
  id : Nat
  user_id : Nat
  transaction_type : TransactionType
  status : TransactionStatus
  credits_amount : ℚ
  payment_reference : Option String := none
  flutterwave_tx_ref : Option String := none
  description : String := ""
  expires_at : Option ℤ := none
deriving DecidableEq, Repr

/-- A row of the `users` table (`User` in `app/models/user.py`), restricted to
the credit fields the embedded code touches. -/
structure User where
  id : Nat
  credits_balance : ℚ := 0
  total_credits_purchased : ℚ := 0
  total_credits_used : ℚ := 0
deriving DecidableEq, Repr

/-- The relational store seen by the credit and payment code: the `users` and
`credit_transactions` tables plus a counter supplying fresh primary keys
(standing in for the `uuid4` column default). -/
structure DB where
  users : List User
  transactions : List CreditTransaction
  next_id : Nat := 0
deriving DecidableEq, Repr

/-- The fields of `Settings` (`app/core/config.py`) that the embedded code
reads, with the defaults from the source.  `config.py` defines
`CREDIT_COST_LARGE`; no attribute named `CREDIR_COST_LARGE` exists on it. -/
structure Settings where
  RATE_LIMIT_ENABLED : Bool := true
  ANONYMOUS_RATE_LIMIT : Nat := 10
  AUTHENTICATED_RATE_LIMIT : Nat := 100
  WEBHOOK_TIMEOUT : Nat := 30
  WEBHOOK_MAX_RETRIES : Nat := 3
  ANONYMOUS_IMAGE_LIMIT : Nat := 3
  FREE_CREDITS_NEW_USER : Nat := 5
  CREDIT_EXPIRY_MONTHS : Nat := 6
  CREDIT_COST_SMALL : ℚ := 1
  CREDIT_COST_LARGE : ℚ := 2
  NO_TEXT_PENALTY : ℚ := 1/5
deriving DecidableEq, Repr

/-- The process-wide `settings = Settings()` instance with all defaults. -/
def settings : Settings := {}

/-- Exceptions the embedded Python code can raise. -/
inductive PyError where
  /-- `sqlalchemy` `Query.scalar()` called on a query returning more than one
  row raises `MultipleResultsFound`. -/
  | multipleResultsFound
  /-- `raise ValueError("User not found")` in `CreditService.add_credits`. -/
  | userNotFound
  /-- `raise ValueError(f"Insufficient credits. ...")` in
  `CreditService.deduct_credits`. -/
  | insufficientCredits (required available : ℚ)
  /-- Attribute access on a missing attribute (or on `None`) raises
  `AttributeError`; the payload names the attribute. -/
  | attributeError (name : String)
deriving DecidableEq, Repr

deriving instance DecidableEq for Except

/-- Look a user up by primary key: `db.query(User).filter(User.id == user_id).first()`. -/
def findUser (db : DB) (uid : Nat) : Option User :=
  db.users.find? (fun u => u.id == uid)

/-- Apply an in-place ORM mutation to the user row with the given id. -/
def updateUser (db : DB) (uid : Nat) (f : User → User) : DB :=
  { db with users := db.users.map (fun u => if u.id == uid then f u else u) }

/-- The credit-adding transaction kinds, as listed in the
`transaction_type.in_([PURCHASE, BONUS, REFUND])` filters of
`CreditService.get_user_credits` and `CreditService.expire_old_credits`. -/
def creditKinds : List TransactionType := [.purchase, .bonus, .refund]

/-- SQL `expires_at > current_time`.  NULL-rejecting: a row whose
`expires_at` is NULL does not satisfy the comparison. -/
def expiresAfter (t : CreditTransaction) (now : ℤ) : Bool :=
  match t.expires_at with
  | some e => decide (now < e)
  | none => false

/-- SQL `expires_at <= current_time`, likewise NULL-rejecting. -/
def expiresAtMost (t : CreditTransaction) (now : ℤ) : Bool :=
  match t.expires_at with
  | some e => decide (e ≤ now)
  | none => false

/-- The filter of the usage query in `CreditService.get_user_credits`:
Completed transactions of kind USAGE belonging to the user. -/
def usageFilter (uid : Nat) (t : CreditTransaction) : Bool :=
  t.user_id == uid && t.transaction_type == .usage && t.status == .completed

/-- The `.with_entities(CreditTransaction.credits_amount).scalar() or 0.0`
step of `CreditService.get_user_credits`.  `Query.scalar()` returns the first
column of the single result row, `None` (turned into `0.0` by `or`) when the
query has no rows, and raises `MultipleResultsFound` when it has more than
one row; nothing sums the rows. -/
def usageScalar (db : DB) (uid : Nat) : Except PyError ℚ :=
  match db.transactions.filter (usageFilter uid) with
  | [] => .ok 0
  | [t] => .ok t.credits_amount
  | _ => .error .multipleResultsFound

/-- The filter of the credit-additions query in
`CreditService.get_user_credits`: Completed PURCHASE/BONUS/REFUND
transactions of the user whose `expires_at` is strictly in the future
(a NULL `expires_at` fails the comparison). -/
def creditAdditionFilter (uid : Nat) (now : ℤ) (t : CreditTransaction) : Bool :=
  t.user_id == uid && creditKinds.contains t.transaction_type
    && t.status == .completed && expiresAfter t now

/-- `CreditService.get_user_credits`: returns `0.0` when the user row is
missing; otherwise sums the unexpired Completed credit additions, reads the
usage amount through `Query.scalar()`, clamps
`total_available - abs(total_used)` at `0` with `max`, writes the result into
the cached `credits_balance` column and returns it together with the
committed store. -/
def get_user_credits (db : DB) (uid : Nat) (now : ℤ) : Except PyError (ℚ × DB) :=
  match findUser db uid with
  | none => .ok (0, db)
  | some _ =>
    let credit_additions := db.transactions.filter (creditAdditionFilter uid now)
    let total_available : ℚ := (credit_additions.map (fun t => t.credits_amount)).sum
    match usageScalar db uid with
    | .error e => .error e
    | .ok total_used =>
      let available_credits := max 0 (total_available - |total_used|)
      .ok (available_credits,
        updateUser db uid (fun u => { u with credits_balance := available_credits }))

/-- `CreditService.add_credits`: raises when the user row is missing;
otherwise inserts a Completed BONUS transaction expiring
`30 * CREDIT_EXPIRY_MONTHS` days (in seconds) from now and bumps the cached
`total_credits_purchased` and `credits_balance` columns. -/
def add_credits (db : DB) (uid : Nat) (amount : ℚ) (description : String) (now : ℤ) :
    Except PyError (DB × CreditTransaction) :=
  match findUser db uid with
  | none => .error .userNotFound
  | some _ =>
    let expiry : ℤ := now + 86400 * (30 * (settings.CREDIT_EXPIRY_MONTHS : ℤ))
    let t : CreditTransaction :=
      { id := db.next_id, user_id := uid, transaction_type := .bonus,
        status := .completed, credits_amount := amount, description := description,
        expires_at := some expiry }
    let db1 := { db with transactions := db.transactions ++ [t], next_id := db.next_id + 1 }
    let db2 := updateUser db1 uid (fun u =>
      { u with total_credits_purchased := u.total_credits_purchased + amount,
               credits_balance := u.credits_balance + amount })
    .ok (db2, t)

/-- `CreditService.deduct_credits`: re-reads the available balance through
`get_user_credits`, raises insufficient-credits when it is below `amount`,
then inserts a Completed transaction with the negated amount and bumps the
cached `total_credits_used` and `credits_balance` columns.  A missing user
row after the balance check would be an `AttributeError` on `None`. -/
def deduct_credits (db : DB) (uid : Nat) (amount : ℚ) (description : String)
    (transaction_type : TransactionType) (now : ℤ) :
    Except PyError (DB × CreditTransaction) :=
  match get_user_credits db uid now with
  | .error e => .error e
  | .ok (available, db1) =>
    if available < amount then
      .error (.insufficientCredits amount available)
    else
      match findUser db1 uid with
      | none => .error (.attributeError "NoneType")
      | some _ =>
        let t : CreditTransaction :=
          { id := db1.next_id, user_id := uid, transaction_type := transaction_type,
            status := .completed, credits_amount := -amount, description := description }
        let db2 := { db1 with transactions := db1.transactions ++ [t],
                              next_id := db1.next_id + 1 }
        let db3 := updateUser db2 uid (fun u =>
          { u with total_credits_used := u.total_credits_used + amount,
                   credits_balance := u.credits_balance - amount })
        .ok (db3, t)

/-- `CreditService.calculate_image_cost`: converts the byte size to megabytes
and returns the flat small-tier cost below 10 MB.  The other branch reads
`settings.CREDIR_COST_LARGE`; `Settings` defines no such attribute (the
config field is spelled `CREDIT_COST_LARGE`), so that branch raises
`AttributeError` instead of returning a cost. -/
def calculate_image_cost (file_size_bytes : Nat) : Except PyError ℚ :=
  let file_size_mb : ℚ := (file_size_bytes : ℚ) / (1024 * 1024)
  if file_size_mb < 10 then
    .ok settings.CREDIT_COST_SMALL
  else
    .error (.attributeError "CREDIR_COST_LARGE")

/-- The filter of `CreditService.expire_old_credits`: Completed
PURCHASE/BONUS/REFUND transactions whose `expires_at` has passed (NULL
`expires_at` rows never match). -/
def expiredFilter (now : ℤ) (t : CreditTransaction) : Bool :=
  expiresAtMost t now && creditKinds.contains t.transaction_type
    && t.status == .completed

/-- The PENALTY transaction that `CreditService.expire_old_credits` inserts
for one expired source transaction: Completed, with the negated amount, its
only link to the source being the free-text description. -/
def mkExpiryTransaction (nid : Nat) (t : CreditTransaction) : CreditTransaction :=
  { id := nid, user_id := t.user_id, transaction_type := .penalty,
    status := .completed, credits_amount := -t.credits_amount,
    description := "Expired credits from transaction " ++ toString t.id }

/-- `CreditService.expire_old_credits`: selects every transaction matching
`expiredFilter` (nothing excludes sources that already have a PENALTY), adds
one PENALTY transaction per match, commits and returns the match count. -/
def expire_old_credits (db : DB) (now : ℤ) : Nat × DB :=
  let expired := db.transactions.filter (expiredFilter now)
  let penalties := (List.range expired.length).zip expired |>.map
    (fun p => mkExpiryTransaction (db.next_id + p.1) p.2)
  (expired.length,
    { db with transactions := db.transactions ++ penalties,
              next_id := db.next_id + expired.length })

/-- Replace the first list element satisfying `p` by its image under `f`,
leaving everything else in place: the ORM mutation of the row returned by
`query.filter(...).first()`. -/
def setFirstWhere (p : α → Bool) (f : α → α) : List α → List α
  | [] => []
  | a :: l => if p a then f a :: l else a :: setFirstWhere p f l

/-- The lookup filter of `handle_successful_payment`:
`CreditTransaction.flutterwave_tx_ref == tx_ref`. -/
def txMatchesRef (ref : String) (t : CreditTransaction) : Bool :=
  t.flutterwave_tx_ref == some ref

/-- The row mutation `handle_successful_payment` applies to the matched
transaction: mark it Completed and store the gateway confirmation reference
(`data.get("flw_ref")`). -/
def markPaid (flw_ref : Option String) (t0 : CreditTransaction) : CreditTransaction :=
  { t0 with status := .completed, payment_reference := flw_ref }

/-- `handle_successful_payment` (`app/api/v1/payments.py`): a missing
`tx_ref`, an unknown reference, or an already-Completed transaction is a
no-op; otherwise the Pending purchase is marked Completed, the gateway
confirmation is stored in `payment_reference`, and
`CreditService.add_credits` is invoked for the purchased amount. -/
def handle_successful_payment (db : DB) (tx_ref : Option String)
    (flw_ref : Option String) (now : ℤ) : Except PyError DB :=
  match tx_ref with
  | none => .ok db
  | some ref =>
    match db.transactions.find? (txMatchesRef ref) with
    | none => .ok db
    | some t =>
      if t.status == .completed then
        .ok db
      else
        let db1 :=
          { db with
            transactions := setFirstWhere (txMatchesRef ref) (markPaid flw_ref) db.transactions }
        match add_credits db1 t.user_id t.credits_amount
            ("Credit purchase: " ++ ref) now with
        | .error e => .error e
        | .ok (db2, _) => .ok db2

/-- The cached user balance, for stating what a payment event did. -/
def userBalance (db : DB) (uid : Nat) : ℚ :=
  ((findUser db uid).map (fun u => u.credits_balance)).getD 0

/-- The user-row mutation performed by `add_credits`: bump the cached
balance and lifetime-purchased counters by the credited amount. -/
def creditAddUser (amount : ℚ) (u0 : User) : User :=
  { u0 with total_credits_purchased := u0.total_credits_purchased + amount,
            credits_balance := u0.credits_balance + amount }

/-- Derived form: the tables after `handle_successful_payment` has marked
the matched purchase `t` as paid and `add_credits` has inserted the
corresponding Completed BONUS entry, before the user-row update. -/
def paidStoreMid (db : DB) (ref : String) (flw_ref : Option String)
    (t : CreditTransaction) (now : ℤ) : DB :=
  { db with
    transactions := setFirstWhere (txMatchesRef ref) (markPaid flw_ref) db.transactions ++
      [{ id := db.next_id, user_id := t.user_id, transaction_type := .bonus,
         status := .completed, credits_amount := t.credits_amount,
         description := "Credit purchase: " ++ ref,
         expires_at := some (now + 86400 * (30 * (settings.CREDIT_EXPIRY_MONTHS : ℤ))) }],
    next_id := db.next_id + 1 }

/-- Derived form: the full store produced by a first successful delivery of
the payment event for reference `ref` matching the pending purchase `t`. -/
def paidStore (db : DB) (ref : String) (flw_ref : Option String)
    (t : CreditTransaction) (now : ℤ) : DB :=
  updateUser (paidStoreMid db ref flw_ref t now) t.user_id (creditAddUser t.credits_amount)

/-- One ledger call, as issued by a request handler: a `Credit`
(`add_credits`) or a `Deduct` (`deduct_credits` of kind USAGE). -/
inductive LedgerOp where
  | credit (amount : ℚ) (description : String)
  | deduct (amount : ℚ) (description : String)
deriving DecidableEq, Repr

/-- Apply one ledger operation for account `uid`, refusing (state unchanged)
any call that raises — in particular a `Deduct` refused with
insufficient-credits, which is how the handlers recover the error at the
request boundary. -/
def applyLedgerOp (uid : Nat) (now : ℤ) (db : DB) : LedgerOp → DB
  | .credit a d =>
    match add_credits db uid a d now with
    | .ok (db1, _) => db1
    | .error _ => db
  | .deduct a d =>
    match deduct_credits db uid a d .usage now with
    | .ok (db1, _) => db1
    | .error _ => db

/-- Apply a sequence of ledger operations in order. -/
def applyLedgerOps (db : DB) (uid : Nat) (now : ℤ) (ops : List LedgerOp) : DB :=
  ops.foldl (applyLedgerOp uid now) db

/-- Job statuses, from `JobStatus` in `app/models/job.py`. -/
inductive JobStatus where
  | pending
  | processing
  | completed
  | failed
  | cancelled
deriving DecidableEq, Repr

/-- A row of the `jobs` table (`Job` in `app/models/job.py`), restricted to
the fields `update_job_status` touches. -/
structure Job where
  id : Nat
  status : JobStatus := .pending
  error_message : Option String := none
  output_url : Option String := none
  completed_at : Option ℤ := none
deriving DecidableEq, Repr

/-- Python truthiness of an optional string: `None` and the empty string are
falsy, so `if error_message:` skips both. -/
def pyTruthy : Option String → Bool
  | none => false
  | some s => !s.isEmpty

/-- The statuses `update_job_status` treats as completion, from its
`status in (COMPLETED, FAILED, CANCELLED)` tuple. -/
def terminalStatuses : List JobStatus := [.completed, .failed, .cancelled]

/-- `update_job_status` (`app/crud/job.py`): `none` when the job id is
unknown; otherwise unconditionally assigns the new status, overwrites
`error_message` and `output_url` when the arguments are truthy, stamps
`completed_at` when the new status is terminal, and commits.  No guard
inspects the current status. -/
def update_job_status (jobs : List Job) (job_id : Nat) (status : JobStatus)
    (error_message : Option String) (output_url : Option String) (now : ℤ) :
    Option (List Job) :=
  match jobs.find? (fun j => j.id == job_id) with
  | none => none
  | some _ =>
    some (jobs.map (fun j =>
      if j.id == job_id then
        { j with
          status := status,
          error_message := if pyTruthy error_message then error_message else j.error_message,
          output_url := if pyTruthy output_url then output_url else j.output_url,
          completed_at := if terminalStatuses.contains status then some now else j.completed_at }
      else j))

/-- A redis sorted set, as used for one rate-limit key: a list of
(member, score) pairs with distinct members. -/
abbrev ZSet : Type := List (String × ℤ)

/-- Redis `ZADD key score member`: updates the score of an existing member
in place, otherwise appends the new member. -/
def zadd (z : ZSet) (member : String) (score : ℤ) : ZSet :=
  if z.any (fun p => p.1 == member) then
    z.map (fun p => if p.1 == member then (p.1, score) else p)
  else
    z ++ [(member, score)]

/-- Redis `ZREMRANGEBYSCORE key lo hi`: drops members whose score lies in
the closed interval. -/
def zremrangebyscore (z : ZSet) (lo hi : ℤ) : ZSet :=
  z.filter (fun p => !(lo ≤ p.2 && p.2 ≤ hi))

/-- The rate-limit pipeline of `RateLimitMiddleware.dispatch`
(`app/middleware/rate_limiting.py`) for one key: executes
`zremrangebyscore key 0 (current_time - 60)`, `zcard`, and
`zadd key (str(current_time): current_time)` — all before the count is
compared with the limit, so the member (the timestamp string, at second
resolution) is recorded whether or not the request is then rejected.
Returns whether the request was accepted, with the new window state. -/
def rateLimitDispatch (z : ZSet) (current_time : ℤ) (limit : Nat) : Bool × ZSet :=
  let window : ℤ := 60
  let trimmed := zremrangebyscore z 0 (current_time - window)
  let request_count := trimmed.length
  let recorded := zadd trimmed (toString current_time) current_time
  (decide (request_count < limit), recorded)

/-- Feed a sequence of request timestamps for one key through the
middleware; returns the number of rejected requests and the final window. -/
def runRateLimited (z : ZSet) (times : List ℤ) (limit : Nat) : Nat × ZSet :=
  times.foldl
    (fun acc t =>
      let r := rateLimitDispatch acc.2 t limit
      (if r.1 then acc.1 else acc.1 + 1, r.2))
    (0, z)

/-- `DeviceTrackingService.check_anonymous_limit`: true when the fingerprint
has used up its lifetime quota. -/
def check_anonymous_limit (images_processed : Nat) : Bool :=
  decide (settings.ANONYMOUS_IMAGE_LIMIT ≤ images_processed)

/-- The error payload of `AnonymousLimitExceededException`
(`app/core/exceptions.py`), whose `details` dictionary carries the
configured limit. -/
structure AnonLimitError where
  limit : Nat
deriving DecidableEq, Repr

/-- The anonymous admission path of `upload_image` (`app/api/v1/image.py`):
raise `AnonymousLimitExceededException` when `check_anonymous_limit` holds —
before any increment — and otherwise increment the fingerprint usage counter
(`DeviceTrackingService.increment_usage`). -/
def anonymousUploadAttempt (images_processed : Nat) : Except AnonLimitError Nat :=
  if check_anonymous_limit images_processed then
    .error { limit := settings.ANONYMOUS_IMAGE_LIMIT }
  else
    .ok (images_processed + 1)

/-- Run `n` successive upload attempts from one device fingerprint,
returning the final usage counter and the per-attempt outcomes.  A failed
attempt leaves the counter unchanged. -/
def runAnonymousUploads : Nat → Nat → Nat × List (Except AnonLimitError Unit)
  | c, 0 => (c, [])
  | c, n + 1 =>
    match anonymousUploadAttempt c with
    | .ok c1 =>
      let r := runAnonymousUploads c1 n
      (r.1, .ok () :: r.2)
    | .error e =>
      let r := runAnonymousUploads c n
      (r.1, .error e :: r.2)

/-- The outcome of one `client.post(webhook_url, json=data)` call inside
`ImageProcessingService.send_webhook`: an HTTP response with a status code,
or a raised exception (timeout, connection error, ...). -/
inductive WebhookAttempt where
  | response (status_code : Nat)
  | exc
deriving DecidableEq, Repr

/-- What one run of `ImageProcessingService.send_webhook` did: how many
attempts were made, the backoff delays slept between attempts (in seconds,
in order), and whether the loop stopped via the status-200 break. -/
structure WebhookTrace where
  attempts : Nat
  delays : List Nat
  succeeded : Bool
deriving DecidableEq, Repr

/-- The retry loop of `ImageProcessingService.send_webhook`, iterating over
the remaining attempt indices of `range(WEBHOOK_MAX_RETRIES)`.  The loop
breaks only on a response with status code exactly 200; any other response
falls through to the next attempt with no sleep.  A raised exception sleeps
`2 ** attempt` seconds unless it happened on the final attempt index
(`n - 1`), where the failure is only logged. -/
def webhookLoop (out : Nat → WebhookAttempt) (n : Nat) : List Nat → WebhookTrace
  | [] => { attempts := 0, delays := [], succeeded := false }
  | i :: rest =>
    match out i with
    | .response c =>
      if c = 200 then
        { attempts := 1, delays := [], succeeded := true }
      else
        let r := webhookLoop out n rest
        { attempts := r.attempts + 1, delays := r.delays, succeeded := r.succeeded }
    | .exc =>
      if i = n - 1 then
        { attempts := 1, delays := [], succeeded := false }
      else
        let r := webhookLoop out n rest
        { attempts := r.attempts + 1, delays := 2 ^ i :: r.delays, succeeded := r.succeeded }

/-- `ImageProcessingService.send_webhook`, abstracted over the outcome of
each attempt.  The whole body is wrapped in a try/except that swallows any
error, and nothing in it reads or writes the job row, so the function always
returns a trace and never touches the store. -/
def send_webhook (out : Nat → WebhookAttempt) : WebhookTrace :=
  webhookLoop out settings.WEBHOOK_MAX_RETRIES (List.range settings.WEBHOOK_MAX_RETRIES)

/-- One 32-bit right rotation on a word represented as a natural number
below `2 ^ 32`. -/
def rotr32 (n x : Nat) : Nat :=
  ((x >>> n) ||| (x <<< (32 - n))) % 4294967296

/-- The 64 SHA-256 round constants of FIPS 180-4, in decimal. -/
def sha256K : Array Nat := #[
  1116352408, 1899447441, 3049323471, 3921009573, 961987163, 1508970993,
  2453635748, 2870763221, 3624381080, 310598401, 607225278, 1426881987,
  1925078388, 2162078206, 2614888103, 3248222580, 3835390401, 4022224774,
  264347078, 604807628, 770255983, 1249150122, 1555081692, 1996064986,
  2554220882, 2821834349, 2952996808, 3210313671, 3336571891, 3584528711,
  113926993, 338241895, 666307205, 773529912, 1294757372, 1396182291,
  1695183700, 1986661051, 2177026350, 2456956037, 2730485921, 2820302411,
  3259730800, 3345764771, 3516065817, 3600352804, 4094571909, 275423344,
  430227734, 506948616, 659060556, 883997877, 958139571, 1322822218,
  1537002063, 1747873779, 1955562222, 2024104815, 2227730452, 2361852424,
  2428436474, 2756734187, 3204031479, 3329325298]

/-- The eight SHA-256 initial hash words of FIPS 180-4, in decimal. -/
def sha256H0 : List Nat :=
  [1779033703, 3144134277, 1013904242, 2773480762,
   1359893119, 2600822924, 528734635, 1541459225]

/-- Big-endian byte decomposition of `x` into `k` bytes. -/
def toBytesBE (k x : Nat) : List Nat :=
  (List.range k).map (fun i => (x >>> (8 * (k - 1 - i))) % 256)

/-- SHA-256 padding: append `0x80`, zero bytes up to 56 mod 64, then the
bit length as 8 big-endian bytes. -/
def sha256pad (msg : List Nat) : List Nat :=
  let padZeros := (119 - msg.length % 64) % 64
  msg ++ [0x80] ++ List.replicate padZeros 0 ++ toBytesBE 8 (8 * msg.length)

/-- Split a list into consecutive chunks of `k` elements. -/
def chunkList (k : Nat) (l : List α) : List (List α) :=
  match k, l with
  | 0, _ => []
  | _, [] => []
  | m + 1, b :: bs => (b :: bs).take (m + 1) :: chunkList (m + 1) ((b :: bs).drop (m + 1))
termination_by l.length
decreasing_by
  simp only [List.length_drop, List.length_cons]
  omega

/-- Reassemble big-endian 32-bit words from a list of bytes. -/
def bytesToWords (bytes : List Nat) : List Nat :=
  (chunkList 4 bytes).map (fun c => c.foldl (fun acc b => acc * 256 + b) 0)

/-- Extend the 16 message words of one chunk to the 64-entry schedule. -/
def sha256schedule (w0 : Array Nat) : Array Nat :=
  (List.range 48).foldl
    (fun w i =>
      let j := i + 16
      let x15 := w[j - 15]!
      let x2 := w[j - 2]!
      let s0 := rotr32 7 x15 ^^^ rotr32 18 x15 ^^^ (x15 >>> 3)
      let s1 := rotr32 17 x2 ^^^ rotr32 19 x2 ^^^ (x2 >>> 10)
      w.push ((w[j - 16]! + s0 + w[j - 7]! + s1) % 4294967296))
    w0

/-- The eight working variables of the SHA-256 compression loop. -/
structure Sha256State where
  a : Nat
  b : Nat
  c : Nat
  d : Nat
  e : Nat
  f : Nat
  g : Nat
  h : Nat
deriving Repr

/-- One round of the SHA-256 compression function. -/
def sha256round (w : Array Nat) (st : Sha256State) (i : Nat) : Sha256State :=
  let s1 := rotr32 6 st.e ^^^ rotr32 11 st.e ^^^ rotr32 25 st.e
  let ch := (st.e &&& st.f) ^^^ ((4294967295 ^^^ st.e) &&& st.g)
  let temp1 := (st.h + s1 + ch + sha256K[i]! + w[i]!) % 4294967296
  let s0 := rotr32 2 st.a ^^^ rotr32 13 st.a ^^^ rotr32 22 st.a
  let maj := (st.a &&& st.b) ^^^ (st.a &&& st.c) ^^^ (st.b &&& st.c)
  let temp2 := (s0 + maj) % 4294967296
  { a := (temp1 + temp2) % 4294967296, b := st.a, c := st.b, d := st.c,
    e := (st.d + temp1) % 4294967296, f := st.e, g := st.f, h := st.g }

/-- Compress one 64-byte chunk into the running hash value. -/
def sha256compress (hv : List Nat) (chunk : List Nat) : List Nat :=
  let w := sha256schedule (Array.mk (bytesToWords chunk))
  let st0 : Sha256State :=
    { a := hv[0]!, b := hv[1]!, c := hv[2]!, d := hv[3]!,
      e := hv[4]!, f := hv[5]!, g := hv[6]!, h := hv[7]! }
  let st := (List.range 64).foldl (sha256round w) st0
  [(hv[0]! + st.a) % 4294967296, (hv[1]! + st.b) % 4294967296,
   (hv[2]! + st.c) % 4294967296, (hv[3]! + st.d) % 4294967296,
   (hv[4]! + st.e) % 4294967296, (hv[5]! + st.f) % 4294967296,
   (hv[6]! + st.g) % 4294967296, (hv[7]! + st.h) % 4294967296]

/-- SHA-256 of a byte sequence, as 32 digest bytes. -/
def sha256 (msg : List Nat) : List Nat :=
  ((chunkList 64 (sha256pad msg)).foldl sha256compress sha256H0).flatMap (toBytesBE 4)

/-- One lowercase hexadecimal digit. -/
def hexDigit (n : Nat) : Char :=
  if n < 10 then Char.ofNat (48 + n) else Char.ofNat (87 + n)

/-- Lowercase hexadecimal rendering of a byte list. -/
def bytesToHex (bs : List Nat) : String :=
  String.mk (bs.flatMap (fun b => [hexDigit (b / 16), hexDigit (b % 16)]))

/-- `hash_string` (`app/core/security.py`): the SHA-256 hex digest of the
UTF-8 encoding of the string. -/
def hash_string (value : String) : String :=
  bytesToHex (sha256 (value.toUTF8.toList.map (fun b => b.toNat)))

/-- The loosely-typed fingerprint-data dictionary, restricted to the five
signals `create_device_fingerprint` reads; a missing key is `none` and
`dict.get(key, the-empty-string)` supplies the default. -/
structure FingerprintData where
  user_agent : Option String := none
  screen_resolution : Option String := none
  timezone : Option String := none
  language : Option String := none
  platform : Option String := none
deriving DecidableEq, Repr

/-- The f-string of `create_device_fingerprint`: the five signals
concatenated directly, with no separator between fields. -/
def fingerprintConcat (d : FingerprintData) : String :=
  d.user_agent.getD "" ++ d.screen_resolution.getD "" ++ d.timezone.getD ""
    ++ d.language.getD "" ++ d.platform.getD ""

/-- `create_device_fingerprint` (`app/core/security.py`): hash the
separator-free concatenation of the five device signals. -/
def create_device_fingerprint (d : FingerprintData) : String :=
  hash_string (fingerprintConcat d)

/-- A store holding one user with no transactions. -/
def dbOneUser : DB := { users := [{ id := 0 }], transactions := [] }

/-- A signup-bonus credit followed by nothing else. -/
def opsSignup : List LedgerOp := [.credit 5 "signup bonus"]

/-- The BONUS transaction that `opsSignup` inserts at time 0. -/
def txSignup : CreditTransaction :=
  { id := 0, user_id := 0, transaction_type := .bonus, status := .completed,
    credits_amount := 5, description := "signup bonus", expires_at := some 15552000 }

/-- The store after running `opsSignup` against `dbOneUser` at time 0. -/
def dbAfterSignup : DB :=
  { users := [{ id := 0, credits_balance := 5, total_credits_purchased := 5,
                total_credits_used := 0 }],
    transactions := [txSignup], next_id := 1 }

/-- A store holding one user with two Completed USAGE transactions: the
shape every account reaches after its second successful deduction. -/
def dbTwoUsage : DB :=
  { users := [{ id := 0 }],
    transactions :=
      [{ id := 1, user_id := 0, transaction_type := .usage, status := .completed,
         credits_amount := -1 },
       { id := 2, user_id := 0, transaction_type := .usage, status := .completed,
         credits_amount := -1 }],
    next_id := 3 }

/-- A store holding one user with a single Completed BONUS credit whose
expiry (time 0) has passed. -/
def dbExpiredBonus : DB :=
  { users := [{ id := 0 }],
    transactions :=
      [{ id := 0, user_id := 0, transaction_type := .bonus, status := .completed,
         credits_amount := 5, expires_at := some 0 }],
    next_id := 1 }

/-- A job that finished successfully: Completed with an output reference. -/
def jobDone : Job :=
  { id := 1, status := .completed, output_url := some "gs://bucket/out.png",
    completed_at := some 50 }

/-- A Pending credit purchase awaiting its payment event, with external
reference tx-1. -/
def txPendingPurchase : CreditTransaction :=
  { id := 0, user_id := 7, transaction_type := .purchase, status := .pending,
    credits_amount := 10, flutterwave_tx_ref := some "tx-1",
    description := "Purchase 10 credits - small package" }

/-- The buyer of `txPendingPurchase`. -/
def userSeven : User := { id := 7 }

/-- The store in which the payment event for tx-1 arrives. -/
def dbPay : DB := { users := [userSeven], transactions := [txPendingPurchase], next_id := 1 }

/-- Webhook attempt outcomes: the first attempt raises, the second is
answered with HTTP 200. -/
def outExcThen200 : Nat → WebhookAttempt :=
  fun k => if k = 0 then .exc else .response 200

/-- One concrete device-signal dictionary. -/
def fpA : FingerprintData :=
  { user_agent := some "Mozilla/5.0 (X11; Linux x86_64)",
    screen_resolution := some "1920x1080", timezone := some "Africa/Lagos",
    language := some "en-US", platform := some "Linux x86_64" }

/-- A different device-signal dictionary: the user agent ends in 1 and the
screen resolution lost its leading 1, so the five fields differ but their
separator-free concatenation is the same as for `fpA`. -/
def fpB : FingerprintData :=
  { user_agent := some "Mozilla/5.0 (X11; Linux x86_64)1",
    screen_resolution := some "920x1080", timezone := some "Africa/Lagos",
    language := some "en-US", platform := some "Linux x86_64" }

/- ------------------------------------------------------------------ -/
/- Theorems.                                                          -/
/- ------------------------------------------------------------------ -/

/-- Whenever `get_user_credits` returns a balance at all, that balance is
nonnegative: the result is clamped with `max(0, ...)` (and a missing user
yields 0). -/
theorem get_user_credits_nonneg (db : DB) (uid : Nat) (now : ℤ) (v : ℚ) (db1 : DB)
    (h : get_user_credits db uid now = .ok (v, db1)) : 0 ≤ v := by
  unfold get_user_credits at h
  cases hf : findUser db uid with
  | none =>
    rw [hf] at h
    simp only [Except.ok.injEq, Prod.mk.injEq] at h
    rw [← h.1]
  | some u =>
    rw [hf] at h
    cases hs : usageScalar db uid with
    | error e => rw [hs] at h; exact absurd h (by simp)
    | ok q =>
      rw [hs] at h
      simp only [Except.ok.injEq, Prod.mk.injEq] at h
      rw [← h.1]
      exact le_max_left 0 _

/-- C1: after any sequence of `Credit` and `Deduct` calls against any store
in which every failing call (in particular every `Deduct` refused with
insufficient credits) left the store unchanged, any balance that
`get_user_credits` returns for any account is nonnegative. -/
theorem c1_available_balance_nonneg (ops : List LedgerOp) (db : DB) (uid : Nat)
    (now now2 : ℤ) (v : ℚ) (db1 : DB)
    (h : get_user_credits (applyLedgerOps db uid now ops) uid now2 = .ok (v, db1)) :
    0 ≤ v :=
  get_user_credits_nonneg _ _ _ _ _ h

/-- Witness for C1: a signup bonus of 5 credits is granted and the balance
read back; the hypothesis is discharged by evaluation and the conclusion is
the nonnegativity of the concrete balance 5. -/
theorem c1_available_balance_nonneg_witness : 0 ≤ (5 : ℚ) :=
  c1_available_balance_nonneg opsSignup dbOneUser 0 0 0 5 dbAfterSignup (by
    simp +decide [get_user_credits, applyLedgerOps, applyLedgerOp, add_credits, findUser,
      updateUser, usageScalar, usageFilter, creditAdditionFilter, creditKinds, expiresAfter,
      settings, dbOneUser, opsSignup, dbAfterSignup, txSignup, List.filter_cons,
      List.filter_nil])

/-- C2 (code bug): for an account with two Completed USAGE rows — the state
after any two successful deductions — `get_user_credits` does not return the
claimed sum-based balance at all: the usage query is read with
`Query.scalar()`, which raises `MultipleResultsFound` on more than one row
instead of summing. -/
theorem c2_scalar_raises_on_two_usage_rows :
    get_user_credits dbTwoUsage 0 0 = .error .multipleResultsFound := by rfl

/-- C3 (code bug): `expire_old_credits` is not idempotent.  With a single
expired BONUS credit, the first run inserts one PENALTY entry and returns 1;
the second run, finding no offset tracking to skip the already-penalized
source, returns 1 again and inserts a second PENALTY for the same source. -/
theorem c3_expire_not_idempotent :
    (expire_old_credits dbExpiredBonus 10).1 = 1 ∧
    (expire_old_credits (expire_old_credits dbExpiredBonus 10).2 10).1 = 1 ∧
    ((expire_old_credits (expire_old_credits dbExpiredBonus 10).2 10).2.transactions.filter
      (fun t => t.transaction_type == .penalty)).length = 2 := by
  refine ⟨rfl, rfl, rfl⟩

/-- C4 (code bug): with limit 2, three requests from one key within the same
second produce zero rejections, not exactly one: each request records the
member `str(current_time)` at second resolution, so all three collapse onto
one sorted-set member and the observed counts are 0, 1, 1 — all below the
limit. -/
theorem c4_same_second_requests_never_rejected :
    (runRateLimited [] [1000, 1000, 1000] 2).1 = 0 ∧
    (runRateLimited [] [1000, 1000, 1000] 2).2 = [("1000", 1000)] := by
  refine ⟨rfl, rfl⟩

/-- C5 (code bug): `update_job_status` on a job already in the terminal
Completed status overwrites it: requesting status Pending with an error
message yields a job whose status is Pending and whose error message was
replaced — nothing guards terminal states. -/
theorem c5_terminal_status_overwritten :
    update_job_status [jobDone] 1 .pending (some "boom") none 99 =
      some [{ id := 1, status := .pending, error_message := some "boom",
              output_url := some "gs://bucket/out.png", completed_at := some 50 }] := by
  rfl

/-- C7: from a fresh fingerprint with the default limit of 3, the first
three upload attempts are admitted, the fourth fails with the
anonymous-limit error carrying the limit 3, and the failed attempt leaves
the usage counter at 3. -/
theorem c7_anonymous_quota_fourth_attempt_fails :
    runAnonymousUploads 0 4 =
      (3, [.ok (), .ok (), .ok (), .error { limit := 3 }]) := by
  rfl

/-- C10: two distinct fingerprint-data dictionaries whose five signals
concatenate — with no separator — to the same string, and which therefore
receive the same device-fingerprint hash. -/
theorem c10_fingerprint_collision :
    fpA ≠ fpB ∧ fingerprintConcat fpA = fingerprintConcat fpB ∧
      create_device_fingerprint fpA = create_device_fingerprint fpB :=
  ⟨by decide, by decide, congrArg hash_string (by decide)⟩

/-- C9 counterexample: at exactly 10 MB — the claimed linear-scaling tier —
`calculate_image_cost` returns no cost at all: it raises `AttributeError`
for the misspelled settings attribute. -/
theorem c9_counterexample_no_cost_at_10mb :
    calculate_image_cost (10 * 1024 * 1024) =
      .error (.attributeError "CREDIR_COST_LARGE") ∧
    (calculate_image_cost (10 * 1024 * 1024)).isOk = false := by
  have h : calculate_image_cost (10 * 1024 * 1024) =
      .error (.attributeError "CREDIR_COST_LARGE") := by
    norm_num [calculate_image_cost]
  exact ⟨h, by rw [h]; rfl⟩

/-- C9 as amended: `calculate_image_cost` is a pure function of the file
size; below the 10 MB threshold it returns the flat small-tier cost
`CREDIT_COST_SMALL`, and at or above the threshold it raises
`AttributeError` for the misspelled `CREDIR_COST_LARGE` (the intended
behavior, per the config defaults, being another flat cost — not linear
scaling). -/
theorem c9_flat_small_tier_attribute_typo_above (file_size_bytes : Nat) :
    calculate_image_cost file_size_bytes =
      if file_size_bytes < 10485760 then .ok settings.CREDIT_COST_SMALL
      else .error (.attributeError "CREDIR_COST_LARGE") := by
  have h : ((file_size_bytes : ℚ) / (1024 * 1024) < 10) ↔ file_size_bytes < 10485760 := by
    rw [div_lt_iff₀ (by norm_num : (0 : ℚ) < 1024 * 1024),
      show (10 : ℚ) * (1024 * 1024) = ((10485760 : ℕ) : ℚ) by norm_num, Nat.cast_lt]
  unfold calculate_image_cost
  simp only [h]

/-- The retry loop of `send_webhook`, characterized on any suffix
`List.range' i m` of the attempt indices with `i + m = n`: the loop makes at
most `m` further attempts; if it succeeds it stopped at the first attempt
answered with status exactly 200; if it fails it exhausted all attempts and
no attempt was answered with status 200; and the backoff delays are
`2 ^ k` for exactly the executed attempts `k` that raised an exception,
except the final attempt index. -/
theorem webhookLoop_spec (out : Nat → WebhookAttempt) (n : Nat) :
    ∀ (m i : Nat), i + m = n →
      (webhookLoop out n (List.range' i m)).attempts ≤ m ∧
      ((webhookLoop out n (List.range' i m)).succeeded = true →
        1 ≤ (webhookLoop out n (List.range' i m)).attempts ∧
        out (i + ((webhookLoop out n (List.range' i m)).attempts - 1)) = .response 200 ∧
        ∀ k, i ≤ k → k < i + ((webhookLoop out n (List.range' i m)).attempts - 1) →
          out k ≠ .response 200) ∧
      ((webhookLoop out n (List.range' i m)).succeeded = false →
        (webhookLoop out n (List.range' i m)).attempts = m ∧
        ∀ k, i ≤ k → k < n → out k ≠ .response 200) ∧
      (webhookLoop out n (List.range' i m)).delays =
        ((List.range' i (webhookLoop out n (List.range' i m)).attempts).filter
          (fun k => decide (out k = .exc) && decide (k ≠ n - 1))).map (fun k => 2 ^ k) := by
  intro m
  induction m with
  | zero =>
    intro i hi
    refine ⟨Nat.le_refl 0, ?_, ?_, rfl⟩
    · intro hs; exact absurd hs (by simp [webhookLoop])
    · intro _
      refine ⟨rfl, fun k hk1 hk2 => absurd hk2 (by omega)⟩
  | succ m ih =>
    intro i hi
    have e : List.range' i (m + 1) = i :: List.range' (i + 1) m := rfl
    rw [e]
    obtain ⟨ha, hsucc, hfail, hdel⟩ := ih (i + 1) (by omega)
    cases ho : out i with
    | response c =>
      by_cases hc : c = 200
      · subst hc
        have hr : webhookLoop out n (i :: List.range' (i + 1) m)
            = { attempts := 1, delays := [], succeeded := true } := by
          simp [webhookLoop, ho]
        rw [hr]
        dsimp only
        refine ⟨by omega, ?_, ?_, ?_⟩
        · intro _
          refine ⟨Nat.le_refl 1, ?_, fun k hk1 hk2 => absurd hk2 (by omega)⟩
          simpa using ho
        · intro hs; exact absurd hs (by simp)
        · simp [ho, List.range'_one]
      · have hr : webhookLoop out n (i :: List.range' (i + 1) m)
            = { attempts := (webhookLoop out n (List.range' (i + 1) m)).attempts + 1,
                delays := (webhookLoop out n (List.range' (i + 1) m)).delays,
                succeeded := (webhookLoop out n (List.range' (i + 1) m)).succeeded } := by
          simp [webhookLoop, ho, hc]
        rw [hr]
        dsimp only
        refine ⟨by omega, ?_, ?_, ?_⟩
        · intro hs
          obtain ⟨h1, h2, h3⟩ := hsucc hs
          refine ⟨by omega, ?_, ?_⟩
          · have e2 : i + ((webhookLoop out n (List.range' (i + 1) m)).attempts + 1 - 1)
                = (i + 1) + ((webhookLoop out n (List.range' (i + 1) m)).attempts - 1) := by
              omega
            rw [e2]; exact h2
          · intro k hk1 hk2
            rcases Nat.eq_or_lt_of_le hk1 with he | hlt
            · rw [← he, ho]
              intro hx
              exact hc (by injection hx)
            · exact h3 k (by omega) (by omega)
        · intro hf
          obtain ⟨h1, h2⟩ := hfail hf
          refine ⟨by omega, ?_⟩
          intro k hk1 hk2
          rcases Nat.eq_or_lt_of_le hk1 with he | hlt
          · rw [← he, ho]
            intro hx
            exact hc (by injection hx)
          · exact h2 k (by omega) hk2
        · have e3 : List.range' i ((webhookLoop out n (List.range' (i + 1) m)).attempts + 1)
              = i :: List.range' (i + 1) (webhookLoop out n (List.range' (i + 1) m)).attempts :=
            rfl
          rw [e3, List.filter_cons]
          simpa [ho] using hdel
    | exc =>
      by_cases hl : i = n - 1
      · have hr : webhookLoop out n (i :: List.range' (i + 1) m)
            = { attempts := 1, delays := [], succeeded := false } := by
          simp only [webhookLoop, ho]
          rw [if_pos hl]
        rw [hr]
        dsimp only
        refine ⟨by omega, ?_, ?_, ?_⟩
        · intro hs; exact absurd hs (by simp)
        · intro _
          refine ⟨by omega, ?_⟩
          intro k hk1 hk2
          have hk : k = i := by omega
          rw [hk, ho]
          simp
        · simp [ho, hl, List.range'_one]
      · have hr : webhookLoop out n (i :: List.range' (i + 1) m)
            = { attempts := (webhookLoop out n (List.range' (i + 1) m)).attempts + 1,
                delays := 2 ^ i :: (webhookLoop out n (List.range' (i + 1) m)).delays,
                succeeded := (webhookLoop out n (List.range' (i + 1) m)).succeeded } := by
          simp [webhookLoop, ho, hl]
        rw [hr]
        dsimp only
        refine ⟨by omega, ?_, ?_, ?_⟩
        · intro hs
          obtain ⟨h1, h2, h3⟩ := hsucc hs
          refine ⟨by omega, ?_, ?_⟩
          · have e2 : i + ((webhookLoop out n (List.range' (i + 1) m)).attempts + 1 - 1)
                = (i + 1) + ((webhookLoop out n (List.range' (i + 1) m)).attempts - 1) := by
              omega
            rw [e2]; exact h2
          · intro k hk1 hk2
            rcases Nat.eq_or_lt_of_le hk1 with he | hlt
            · rw [← he, ho]; simp
            · exact h3 k (by omega) (by omega)
        · intro hf
          obtain ⟨h1, h2⟩ := hfail hf
          refine ⟨by omega, ?_⟩
          intro k hk1 hk2
          rcases Nat.eq_or_lt_of_le hk1 with he | hlt
          · rw [← he, ho]; simp
          · exact h2 k (by omega) hk2
        · have e3 : List.range' i ((webhookLoop out n (List.range' (i + 1) m)).attempts + 1)
              = i :: List.range' (i + 1) (webhookLoop out n (List.range' (i + 1) m)).attempts :=
            rfl
          rw [e3, List.filter_cons]
          simpa [ho, hl] using congrArg (List.cons (2 ^ i)) hdel

/-- C8 as amended: `send_webhook` makes at most `WEBHOOK_MAX_RETRIES` (3)
attempts; the loop stops early only on a response with status exactly 200
(at the first such attempt); when no attempt returns status 200 all
configured attempts are made and the failure is swallowed (the function
still returns a trace, and nothing in it touches the job); and a backoff of
`2 ^ attempt` seconds is slept exactly after each exception-raising attempt
other than the final attempt index — a non-200 HTTP response retries with
no delay. -/
theorem c8_webhook_retry_contract (out : Nat → WebhookAttempt) :
    (send_webhook out).attempts ≤ settings.WEBHOOK_MAX_RETRIES ∧
    ((send_webhook out).succeeded = true →
      out ((send_webhook out).attempts - 1) = .response 200 ∧
      ∀ k < (send_webhook out).attempts - 1, out k ≠ .response 200) ∧
    ((send_webhook out).succeeded = false →
      (send_webhook out).attempts = settings.WEBHOOK_MAX_RETRIES ∧
      ∀ k < settings.WEBHOOK_MAX_RETRIES, out k ≠ .response 200) ∧
    (send_webhook out).delays =
      ((List.range (send_webhook out).attempts).filter
        (fun k => decide (out k = .exc) &&
          decide (k ≠ settings.WEBHOOK_MAX_RETRIES - 1))).map (fun k => 2 ^ k) := by
  obtain ⟨ha, hsucc, hfail, hdel⟩ :=
    webhookLoop_spec out settings.WEBHOOK_MAX_RETRIES settings.WEBHOOK_MAX_RETRIES 0 rfl
  rw [show send_webhook out
      = webhookLoop out settings.WEBHOOK_MAX_RETRIES
          (List.range' 0 settings.WEBHOOK_MAX_RETRIES) by
    rw [send_webhook, List.range_eq_range']]
  refine ⟨ha, ?_, ?_, ?_⟩
  · intro hs
    obtain ⟨h1, h2, h3⟩ := hsucc hs
    exact ⟨by simpa using h2, fun k hk => h3 k (Nat.zero_le k) (by omega)⟩
  · intro hf
    obtain ⟨h1, h2⟩ := hfail hf
    exact ⟨h1, fun k hk => h2 k (Nat.zero_le k) hk⟩
  · rw [hdel, List.range_eq_range']

/-- C8 counterexample: when every attempt is answered with HTTP 201 — a 2xx
status — the loop does not stop early: all three attempts are made and no
success is recorded, because the break tests `status_code == 200` only. -/
theorem c8_counterexample_201_not_break :
    (send_webhook (fun _ => .response 201)).attempts = 3 ∧
    (send_webhook (fun _ => .response 201)).succeeded = false := by
  refine ⟨rfl, rfl⟩

/-- Witness for C8: with an exception on the first attempt and HTTP 200 on
the second, the run succeeds, its last attempt is the one answered 200, its
attempt count stays within the configured bound, and exactly one backoff of
`2 ^ 0 = 1` second was slept. -/
theorem c8_webhook_retry_contract_witness :
    (send_webhook outExcThen200).succeeded = true ∧
    outExcThen200 ((send_webhook outExcThen200).attempts - 1) = .response 200 ∧
    (send_webhook outExcThen200).attempts ≤ settings.WEBHOOK_MAX_RETRIES ∧
    (send_webhook outExcThen200).delays = [1] := by
  have h := c8_webhook_retry_contract outExcThen200
  exact ⟨by rfl, (h.2.1 (by rfl)).1, h.1, by rfl⟩

/-- Updating the first element matched by `p` with a `p`-preserving function
commutes with `find? p`. -/
theorem find?_setFirstWhere (p : α → Bool) (f : α → α) (hp : ∀ a, p (f a) = p a) :
    ∀ l : List α, (setFirstWhere p f l).find? p = (l.find? p).map f := by
  intro l
  induction l with
  | nil => rfl
  | cons a l ih =>
    by_cases h : p a = true
    · rw [setFirstWhere, if_pos h, List.find?_cons_of_pos _ ((hp a).trans h),
        List.find?_cons_of_pos _ h]
      rfl
    · rw [setFirstWhere, if_neg h, List.find?_cons_of_neg _ h,
        List.find?_cons_of_neg _ (by simpa using h), ih]

/-- `updateUser` with an id-preserving row mutation commutes with the user
lookup. -/
theorem findUser_updateUser (db : DB) (uid : Nat) (g : User → User)
    (hg : ∀ u0 : User, (g u0).id = u0.id) :
    findUser (updateUser db uid g) uid = (findUser db uid).map g := by
  unfold findUser updateUser
  dsimp only
  induction db.users with
  | nil => rfl
  | cons a l ih =>
    by_cases h : (a.id == uid) = true
    · rw [List.map_cons, if_pos h]
      simp [List.find?, h, hg]
    · have hb : (a.id == uid) = false := by simpa using h
      rw [List.map_cons, if_neg h]
      simp only [List.find?, hb]
      exact ih

/-- C6: delivering the successful-charge event for reference `ref` twice is
the same as delivering it once — the second delivery finds the transaction
already Completed and is a no-op — and the first delivery increases the
cached balance of the purchasing account by exactly the purchased amount. -/
theorem c6_payment_replay_idempotent (db : DB) (ref : String) (flw : Option String)
    (now now2 : ℤ) (t : CreditTransaction) (u : User)
    (ht : db.transactions.find? (txMatchesRef ref) = some t)
    (hs : t.status = .pending)
    (hu : findUser db t.user_id = some u) :
    (handle_successful_payment db (some ref) flw now).bind
        (fun dbn => handle_successful_payment dbn (some ref) flw now2)
      = handle_successful_payment db (some ref) flw now ∧
    (handle_successful_payment db (some ref) flw now).toOption.map
        (fun dbn => userBalance dbn t.user_id)
      = some (u.credits_balance + t.credits_amount) := by
  have hu0 := hu
  simp only [findUser] at hu0
  have h1 : handle_successful_payment db (some ref) flw now
      = .ok (paidStore db ref flw t now) := by
    simp +decide only [handle_successful_payment, ht, hs, add_credits, findUser, hu0,
      if_false, paidStore, paidStoreMid, creditAddUser, markPaid]
    rfl
  have hfirst : (setFirstWhere (txMatchesRef ref) (markPaid flw) db.transactions).find?
      (txMatchesRef ref) = some (markPaid flw t) := by
    rw [find?_setFirstWhere (txMatchesRef ref) (markPaid flw) (fun a => rfl), ht]
    rfl
  have hfind2 : (paidStore db ref flw t now).transactions.find? (txMatchesRef ref)
      = some (markPaid flw t) := by
    show (setFirstWhere (txMatchesRef ref) (markPaid flw) db.transactions ++ _).find?
      (txMatchesRef ref) = _
    rw [List.find?_append, hfirst]
    rfl
  have h2 : handle_successful_payment (paidStore db ref flw t now) (some ref) flw now2
      = .ok (paidStore db ref flw t now) := by
    simp +decide only [handle_successful_payment, hfind2, markPaid, if_true]
  have hfu : findUser (paidStore db ref flw t now) t.user_id
      = (findUser db t.user_id).map (creditAddUser t.credits_amount) :=
    findUser_updateUser (paidStoreMid db ref flw t now) t.user_id
      (creditAddUser t.credits_amount) (fun u0 => rfl)
  have h3 : userBalance (paidStore db ref flw t now) t.user_id
      = u.credits_balance + t.credits_amount := by
    unfold userBalance
    rw [hfu, hu]
    rfl
  refine ⟨?_, ?_⟩
  · rw [h1]
    show handle_successful_payment (paidStore db ref flw t now) (some ref) flw now2
      = .ok (paidStore db ref flw t now)
    exact h2
  · rw [h1]
    show some (userBalance (paidStore db ref flw t now) t.user_id)
      = some (u.credits_balance + t.credits_amount)
    rw [h3]

/-- Witness for C6: the concrete store `dbPay` holds the pending purchase
tx-1 of 10 credits for user 7; delivering the event twice equals delivering
it once, and the cached balance rises by exactly 10. -/
theorem c6_payment_replay_idempotent_witness :
    (handle_successful_payment dbPay (some "tx-1") (some "flw-9") 0).bind
        (fun dbn => handle_successful_payment dbn (some "tx-1") (some "flw-9") 99)
      = handle_successful_payment dbPay (some "tx-1") (some "flw-9") 0 ∧
    (handle_successful_payment dbPay (some "tx-1") (some "flw-9") 0).toOption.map
        (fun dbn => userBalance dbn txPendingPurchase.user_id)
      = some (userSeven.credits_balance + txPendingPurchase.credits_amount) :=
  c6_payment_replay_idempotent dbPay "tx-1" (some "flw-9") 0 99
    txPendingPurchase userSeven (by rfl) rfl (by rfl)

end Imangor
